import Mathlib

/-!
Verification of the networking layer of an EPaxos replication engine
(`dsm/epaxos/network/peer.py`, `dsm/epaxos/network/zeromq/impl.py`)
against its natural-language specification.

The embedding is shallow: the three interface classes become a table of
method signatures; `ReplicaServer.main`'s loop body becomes a pure
function from iteration inputs (timeout-store answer, measured wall-clock
deltas, pending socket messages) to the trace of side-effecting calls it
performs; `ReplicaClient.connect` and `ReplicaClient.request` become pure
functions from client state and poll outcomes to socket actions and
results.
-/

/-- Parameter names occurring in the handler methods of
`AcceptorInterface`, `LeaderInterface` and `ClientInterface`
(`peer.py`), and field names of the message table in the spec. -/
inductive FieldName
  | peer
  | clientPeer
  | slot
  | ballot
  | command
  | seq
  | deps
  | state
deriving DecidableEq, Repr

/-- A method of one of the channel interface classes: its name and its
parameter list (excluding `self`), in source order. -/
structure Method where
  name : String
  params : List FieldName
deriving DecidableEq, Repr

/-- The methods of `AcceptorInterface` (`peer.py` lines 7-22), verbatim. -/
def acceptorInterfaceMethods : List Method :=
  [⟨"pre_accept_request", [.peer, .slot, .ballot, .command, .seq, .deps]⟩,
   ⟨"accept_request", [.peer, .slot, .ballot, .command, .seq, .deps]⟩,
   ⟨"commit_request", [.peer, .slot, .ballot, .seq, .command, .deps]⟩,
   ⟨"prepare_request", [.peer, .slot, .ballot]⟩]

/-- The methods of `LeaderInterface` (`peer.py` lines 25-40), verbatim. -/
def leaderInterfaceMethods : List Method :=
  [⟨"client_request", [.clientPeer, .command]⟩,
   ⟨"pre_accept_response_ack", [.peer, .slot, .ballot, .seq, .deps]⟩,
   ⟨"pre_accept_response_nack", [.peer, .slot]⟩,
   ⟨"prepare_response_ack", [.peer, .slot, .ballot, .command, .seq, .deps, .state]⟩,
   ⟨"prepare_response_nack", [.peer, .slot]⟩]

/-- The methods of `ClientInterface` (`peer.py` lines 43-45), verbatim. -/
def clientInterfaceMethods : List Method :=
  [⟨"client_response", [.clientPeer, .command]⟩]

/-- The combined method set of `Channel(AcceptorInterface, ClientInterface,
LeaderInterface)` (`peer.py` line 48), in base-class order. -/
def channelMethods : List Method :=
  acceptorInterfaceMethods ++ clientInterfaceMethods ++ leaderInterfaceMethods

/-- The peer message kinds of the spec's section-6 table. -/
inductive MessageKind
  | clientRequest
  | clientResponse
  | preAcceptRequest
  | preAcceptAck
  | preAcceptNack
  | acceptRequest
  | acceptAck
  | acceptNack
  | commitRequest
  | prepareRequest
  | prepareAck
  | prepareNack
deriving DecidableEq, Repr

/-- The payload fields of each message kind, in the order of the spec's
section-6 table (for `AcceptAck / AcceptNack | slot[, ballot]` the
bracket puts the ballot on the Ack, mirroring the PreAccept pair). -/
def specFields : MessageKind → List FieldName
  | .clientRequest => [.clientPeer, .command]
  | .clientResponse => [.clientPeer, .command]
  | .preAcceptRequest => [.slot, .ballot, .command, .seq, .deps]
  | .preAcceptAck => [.slot, .ballot, .seq, .deps]
  | .preAcceptNack => [.slot]
  | .acceptRequest => [.slot, .ballot, .command, .seq, .deps]
  | .acceptAck => [.slot, .ballot]
  | .acceptNack => [.slot]
  | .commitRequest => [.slot, .ballot, .seq, .command, .deps]
  | .prepareRequest => [.slot, .ballot]
  | .prepareAck => [.slot, .ballot, .command, .seq, .deps, .state]
  | .prepareNack => [.slot]

/-- The handler-method name the repository's naming convention assigns to
each message kind (`XRequest` to `x_request`, response `XAck`/`XNack` to
`x_response_ack`/`x_response_nack`), as witnessed by the ten methods
that do exist in `peer.py`. -/
def expectedMethodName : MessageKind → String
  | .clientRequest => "client_request"
  | .clientResponse => "client_response"
  | .preAcceptRequest => "pre_accept_request"
  | .preAcceptAck => "pre_accept_response_ack"
  | .preAcceptNack => "pre_accept_response_nack"
  | .acceptRequest => "accept_request"
  | .acceptAck => "accept_response_ack"
  | .acceptNack => "accept_response_nack"
  | .commitRequest => "commit_request"
  | .prepareRequest => "prepare_request"
  | .prepareAck => "prepare_response_ack"
  | .prepareNack => "prepare_response_nack"

/-- The parameter list a handler for kind `k` must have: the message's
fields in table order, preceded by the sending peer's id for peer-to-peer
messages (the client-facing kinds already begin with the client peer id). -/
def expectedParams (k : MessageKind) : List FieldName :=
  match k with
  | .clientRequest => specFields k
  | .clientResponse => specFields k
  | _ => .peer :: specFields k

/-- Whether method `m` is the handler for message kind `k`: its name is the
one the naming convention assigns to `k` and its parameters are `k`'s
fields in order. -/
def isHandlerFor (m : Method) (k : MessageKind) : Bool :=
  m.name = expectedMethodName k && m.params = expectedParams k

/-- How many handlers for kind `k` the combined `Channel` interface declares. -/
def handlerCount (k : MessageKind) : Nat :=
  (channelMethods.filter (fun m => isHandlerFor m k)).length

/-- All twelve message kinds of the section-6 table. -/
def allMessageKinds : List MessageKind :=
  [.clientRequest, .clientResponse,
   .preAcceptRequest, .preAcceptAck, .preAcceptNack,
   .acceptRequest, .acceptAck, .acceptNack,
   .commitRequest, .prepareRequest, .prepareAck, .prepareNack]

/-- C1 (counterexample): the combined Channel interface declares no handler
for AcceptAck and none for AcceptNack — every one of its ten methods is
the handler of exactly one of the other ten message kinds, and no method
bears the Accept-response name or signature the convention prescribes —
so the claim that every message kind of the section-6 table has exactly
one handler, and in particular that handlers exist for AcceptAck and
AcceptNack, is false. -/
theorem c1_counterexample :
    handlerCount MessageKind.acceptAck = 0 ∧
    handlerCount MessageKind.acceptNack = 0 ∧
    channelMethods.all
      (fun m =>
        (allMessageKinds.filter (fun k => isHandlerFor m k)).length = 1 &&
        !(isHandlerFor m MessageKind.acceptAck) &&
        !(isHandlerFor m MessageKind.acceptNack)) = true := by
  decide

/-- C1 (amended): every message kind of the section-6 table except AcceptAck
and AcceptNack has exactly one handler in the combined Channel interface,
with exactly that kind's fields as parameters in table order after the
sending peer's id (the CommitRequest handler in the order
slot, ballot, seq, command, deps; the PreAccept/Accept request handlers in
the order slot, ballot, command, seq, deps); AcceptAck and AcceptNack have
no handler at all. -/
theorem c1_amended_handler_table (k : MessageKind) :
    handlerCount k =
      (if k = MessageKind.acceptAck ∨ k = MessageKind.acceptNack then 0 else 1) := by
  cases k <;> decide

/-! ## ReplicaServer construction (`impl.py` lines 29-65) -/

/-- The parameter names of `ReplicaServer.__init__` besides `self`
(`impl.py` lines 30-36), verbatim and in order. -/
def replicaServerInitParams : List String :=
  ["context", "epoch", "replica_id", "peer_addr"]

/-- The positional arguments `ReplicaServer.__init__` passes to the
`ReplicaState` constructor (`impl.py` lines 51-58): the send channel,
`epoch`, `replica_id`, the peer-id set twice, and the literal constants
`True` and `5`. The send channel is elided (`Unit`); the two peer-id sets
are the keys of `peer_addr`. -/
def replicaServerInitStateArgs (epoch replica_id : Nat) (peerAddrKeys : List Nat) :
    Unit × Nat × Nat × List Nat × List Nat × Bool × Nat :=
  ((), epoch, replica_id, peerAddrKeys, peerAddrKeys, true, 5)

/-- C2 (counterexample): none of `seconds_per_tick`, `jiffies_per_timeout`,
`fast_path_enabled`, `quorum_full`, `quorum_fast` is a parameter of
`ReplicaServer.__init__`, so a `ReplicaServer` cannot be constructed with
caller-chosen values for them. -/
theorem c2_counterexample :
    (["seconds_per_tick", "jiffies_per_timeout", "fast_path_enabled",
      "quorum_full", "quorum_fast"].all
        (fun p => !(replicaServerInitParams.contains p))) = true := by
  decide

/-- C2 (amended): the tuning parameters are not exposed to configuration at
`ReplicaServer` construction: `ReplicaServer.__init__` accepts only
`context`, `epoch`, `replica_id` and `peer_addr`, and the boolean and
numeric tuning arguments it passes to `ReplicaState` are the fixed
literals `True` and `5`, independent of the constructor's inputs. -/
theorem c2_amended_tuning_fixed (epoch replica_id : Nat) (peerAddrKeys : List Nat) :
    replicaServerInitParams = ["context", "epoch", "replica_id", "peer_addr"] ∧
    (replicaServerInitStateArgs epoch replica_id peerAddrKeys).2.2.2.2.2 = (true, 5) := by
  exact ⟨rfl, rfl⟩

/-! ## The replica event loop (`ReplicaServer.main`, `impl.py` lines 75-116) -/

/-- An opaque packet payload as read off the replica socket. -/
abbrev Packet := Nat

/-- One observable call performed by the loop body of `ReplicaServer.main`:
the transport poll (with its wait, in milliseconds), `replica.tick()`,
`replica.check_timeouts()`, one `socket.recv_multipart` call (with its
blocking mode and its result), one `channel_receive.receive_packet` call,
and `replica.execute_pending()`. -/
inductive Event
  | poll (wait_ms : ℚ)
  | tick
  | checkTimeouts
  | recv (blocking : Bool) (result : Option Packet)
  | receivePacket (p : Packet)
  | executePending
deriving DecidableEq, Repr

/-- The inner drain loop (`impl.py` lines 102-109): repeatedly call
`socket.recv_multipart(flags=zmq.NOBLOCK)` and append the payload to
`packets`, until the non-blocking read raises `zmq.ZMQError`. Input is the
queue of messages available on the socket, in arrival order; output is the
recv events performed and the `packets` list built. -/
def recvLoop : List Packet → List Event × List Packet
  | [] => ([Event.recv false none], [])
  | p :: rest =>
    let (evs, ps) := recvLoop rest
    (Event.recv false (some p) :: evs, p :: ps)

/-- The wait handed to `self.poller.poll` in seconds (`impl.py` lines
83-89): `min_wait` is the timeout store's answer (`None` or a number of
seconds); `min_wait_poll = max(0, seconds_per_tick - poll_delta)` with
`poll_delta` carried over from the previous iteration; Python's
`if min_wait:` is a truthiness test, false for `None` and for `0`. -/
def pollWaitSeconds (secondsPerTick : ℚ) (minWaitStore : Option ℚ)
    (prevPollDelta : ℚ) : ℚ :=
  let minWaitPoll := max 0 (secondsPerTick - prevPollDelta)
  match minWaitStore with
  | some w => if w ≠ 0 then min w minWaitPoll else minWaitPoll
  | none => minWaitPoll

/-- The inputs one iteration of the `while True:` loop of
`ReplicaServer.main` reacts to: the timeout store's
`check_timeouts_minimum_wait()` answer, the `poll_delta` carried from the
previous iteration, the new `poll_delta` measured right after the poll
(wall clock, supplied by the environment), whether the poll reported the
replica socket readable, and the messages available on it in arrival
order. -/
structure IterationInput where
  minWaitStore : Option ℚ
  prevPollDelta : ℚ
  newPollDelta : ℚ
  socketReady : Bool
  available : List Packet
deriving Repr

/-- The tick block (`impl.py` lines 94-97): if the newly measured
`poll_delta` exceeds `seconds_per_tick`, call `replica.tick()` then
`replica.check_timeouts()` (and reset `last_tick_time`). -/
def tickEvents (secondsPerTick newPollDelta : ℚ) : List Event :=
  if newPollDelta > secondsPerTick then [Event.tick, Event.checkTimeouts] else []

/-- The socket block (`impl.py` lines 101-116): if the poll reported the
replica socket readable, drain it non-blockingly into `packets`, call
`receive_packet` on each packet in order, and if `len(packets)` is
non-zero call `replica.execute_pending()`; otherwise do nothing. -/
def recvEvents (socketReady : Bool) (available : List Packet) : List Event :=
  if socketReady then
    (recvLoop available).1 ++ (recvLoop available).2.map Event.receivePacket ++
      (if (recvLoop available).2.length ≠ 0 then [Event.executePending] else [])
  else []

/-- One full iteration of the loop body of `ReplicaServer.main` (`impl.py`
lines 82-116), as the trace of calls it performs: poll with the computed
wait (seconds times 1000, milliseconds), then the tick block, then the
socket block. -/
def mainIteration (secondsPerTick : ℚ) (inp : IterationInput) : List Event :=
  Event.poll (pollWaitSeconds secondsPerTick inp.minWaitStore inp.prevPollDelta * 1000) ::
    (tickEvents secondsPerTick inp.newPollDelta ++
      recvEvents inp.socketReady inp.available)

theorem recvLoop_snd (l : List Packet) : (recvLoop l).2 = l := by
  induction l with
  | nil => rfl
  | cons p rest ih => simp [recvLoop, ih]

theorem recvLoop_fst_mem (l : List Packet) :
    ∀ e ∈ (recvLoop l).1, ∃ r, e = Event.recv false r := by
  induction l with
  | nil => intro e he; simp [recvLoop] at he; exact ⟨none, he⟩
  | cons p rest ih =>
    intro e he
    simp only [recvLoop, List.mem_cons] at he
    rcases he with h | h
    · exact ⟨some p, h⟩
    · exact ih e h

theorem tickEvents_mem (spt d : ℚ) :
    ∀ e ∈ tickEvents spt d, e = Event.tick ∨ e = Event.checkTimeouts := by
  intro e he
  unfold tickEvents at he
  split at he
  · simp only [List.mem_cons, List.mem_singleton, List.not_mem_nil, or_false] at he
    exact he
  · simp at he

theorem recvEvents_mem (s : Bool) (a : List Packet) :
    ∀ e ∈ recvEvents s a,
      (∃ r, e = Event.recv false r) ∨ (∃ p, e = Event.receivePacket p) ∨
        e = Event.executePending := by
  intro e he
  unfold recvEvents at he
  split at he
  · simp only [List.mem_append] at he
    rcases he with (h | h) | h
    · exact Or.inl (recvLoop_fst_mem a e h)
    · obtain ⟨p, _, hp⟩ := List.mem_map.mp h
      exact Or.inr (Or.inl ⟨p, hp.symm⟩)
    · split at h
      · simp only [List.mem_singleton] at h
        exact Or.inr (Or.inr h)
      · simp at h
  · simp at he

/-- C3: in every iteration of `ReplicaServer.main` that received at least
one inbound packet, `execute_pending` is invoked, and only after the whole
packet batch has been dispatched to `receive_packet`: the trace ends with
the batch's `receive_packet` calls in order followed by
`execute_pending`. -/
theorem c3_executor_after_batch (spt : ℚ) (inp : IterationInput)
    (hready : inp.socketReady = true) (hne : inp.available ≠ []) :
    ∃ pre, mainIteration spt inp =
      pre ++ inp.available.map Event.receivePacket ++ [Event.executePending] := by
  refine ⟨Event.poll (pollWaitSeconds spt inp.minWaitStore inp.prevPollDelta * 1000) ::
    (tickEvents spt inp.newPollDelta ++ (recvLoop inp.available).1), ?_⟩
  have hlen : (recvLoop inp.available).2.length ≠ 0 := by
    rw [recvLoop_snd]
    simpa using hne
  simp only [mainIteration, recvEvents, hready, if_true, recvLoop_snd, hlen,
    ite_true, List.cons_append, List.append_assoc]
  simp [hne]

/-- C3 witness at a concrete input. -/
theorem c3_executor_after_batch_witness :
    (⟨none, 0, 0, true, [7, 9]⟩ : IterationInput).socketReady = true ∧
    (⟨none, 0, 0, true, [7, 9]⟩ : IterationInput).available ≠ [] ∧
    ∃ pre, mainIteration 1 ⟨none, 0, 0, true, [7, 9]⟩ =
      pre ++ [7, 9].map Event.receivePacket ++ [Event.executePending] :=
  ⟨rfl, by decide,
    c3_executor_after_batch 1 ⟨none, 0, 0, true, [7, 9]⟩ rfl (by decide)⟩

theorem recvEvents_count_tick (s : Bool) (a : List Packet) :
    (recvEvents s a).count Event.tick = 0 := by
  rw [List.count_eq_zero]
  intro hmem
  rcases recvEvents_mem s a _ hmem with ⟨r, h⟩ | ⟨p, h⟩ | h <;> simp at h

/-- C4: in an iteration of `ReplicaServer.main`, the logical clock ticks
exactly when the wall-clock time measured after the poll exceeds
`seconds_per_tick`: the trace holds exactly one `tick()` call if
`poll_delta > seconds_per_tick` and none otherwise, and when it ticks the
tick is immediately followed by `check_timeouts()`. -/
theorem c4_tick_exactly_on_elapsed (spt : ℚ) (inp : IterationInput) :
    ((mainIteration spt inp).count Event.tick
        = if inp.newPollDelta > spt then 1 else 0) ∧
    (inp.newPollDelta > spt →
      ∃ w rest, mainIteration spt inp
          = Event.poll w :: Event.tick :: Event.checkTimeouts :: rest) := by
  constructor
  · by_cases h : inp.newPollDelta > spt <;>
      simp [mainIteration, tickEvents, recvEvents_count_tick, h,
        List.count_cons, List.count_append]
  · intro h
    refine ⟨pollWaitSeconds spt inp.minWaitStore inp.prevPollDelta * 1000,
      recvEvents inp.socketReady inp.available, ?_⟩
    simp [mainIteration, tickEvents, h]

/-- C4 witness at a concrete input. -/
theorem c4_tick_exactly_on_elapsed_witness :
    ((mainIteration 1 ⟨none, 0, 2, false, []⟩).count Event.tick
        = if (2 : ℚ) > 1 then 1 else 0) ∧
    ((2 : ℚ) > 1 →
      ∃ w rest, mainIteration 1 ⟨none, 0, 2, false, []⟩
          = Event.poll w :: Event.tick :: Event.checkTimeouts :: rest) :=
  c4_tick_exactly_on_elapsed 1 ⟨none, 0, 2, false, []⟩

/-- Whether an event is the transport poll. -/
def isPoll : Event → Bool
  | .poll _ => true
  | _ => false

/-- C5: the wait handed to the transport poll is
`min(next_timeout, tick_interval)` — the timeout store's minimum wait
capped by the remaining tick interval `max(0, seconds_per_tick -
poll_delta)` — and the remaining tick interval alone when the store
reports no pending wait (the store's contract reports either no wait or a
positive one); the iteration polls exactly once, as its first action, for
that wait in milliseconds, and every socket read in the iteration is
non-blocking. -/
theorem c5_single_poll_min_wait (spt : ℚ) (inp : IterationInput)
    (hpos : ∀ w ∈ inp.minWaitStore, 0 < w) :
    (∀ w, inp.minWaitStore = some w →
        pollWaitSeconds spt inp.minWaitStore inp.prevPollDelta
          = min w (max 0 (spt - inp.prevPollDelta))) ∧
    (inp.minWaitStore = none →
        pollWaitSeconds spt inp.minWaitStore inp.prevPollDelta
          = max 0 (spt - inp.prevPollDelta)) ∧
    ((mainIteration spt inp).head? =
        some (Event.poll
          (pollWaitSeconds spt inp.minWaitStore inp.prevPollDelta * 1000))) ∧
    ((mainIteration spt inp).countP (fun e => isPoll e) = 1) ∧
    (∀ b r, Event.recv b r ∈ mainIteration spt inp → b = false) := by
  refine ⟨?_, ?_, rfl, ?_, ?_⟩
  · intro w hw
    have hw0 : (0 : ℚ) < w := hpos w (by rw [Option.mem_def, hw])
    unfold pollWaitSeconds
    rw [hw]
    simp [hw0.ne']
  · intro h
    unfold pollWaitSeconds
    rw [h]
  · unfold mainIteration
    rw [List.countP_cons]
    have h0 : (tickEvents spt inp.newPollDelta ++
        recvEvents inp.socketReady inp.available).countP (fun e => isPoll e) = 0 := by
      rw [List.countP_eq_zero]
      intro e he
      rcases List.mem_append.mp he with h | h
      · rcases tickEvents_mem spt inp.newPollDelta e h with rfl | rfl <;> simp [isPoll]
      · rcases recvEvents_mem inp.socketReady inp.available e h with ⟨r, rfl⟩ | ⟨p, rfl⟩ | rfl <;>
          simp [isPoll]
    rw [h0]
    simp [isPoll]
  · intro b r hmem
    unfold mainIteration at hmem
    rcases List.mem_cons.mp hmem with h | h
    · simp at h
    · rcases List.mem_append.mp h with h | h
      · rcases tickEvents_mem spt inp.newPollDelta _ h with h | h <;> simp at h
      · rcases recvEvents_mem inp.socketReady inp.available _ h with ⟨r2, h⟩ | ⟨p, h⟩ | h
        · simp only [Event.recv.injEq] at h
          exact h.1
        · simp at h
        · simp at h

/-- C5 witness at a concrete input. -/
theorem c5_single_poll_min_wait_witness :
    (∀ w, (none : Option ℚ) = some w →
        pollWaitSeconds 2 none 3 = min w (max 0 (2 - 3))) ∧
    ((none : Option ℚ) = none → pollWaitSeconds 2 none 3 = max 0 (2 - 3)) ∧
    ((mainIteration 2 ⟨none, 3, 0, false, []⟩).head? =
        some (Event.poll (pollWaitSeconds 2 none 3 * 1000))) ∧
    ((mainIteration 2 ⟨none, 3, 0, false, []⟩).countP (fun e => isPoll e) = 1) ∧
    (∀ b r, Event.recv b r ∈ mainIteration 2 ⟨none, 3, 0, false, []⟩ → b = false) :=
  c5_single_poll_min_wait 2 ⟨none, 3, 0, false, []⟩ (by simp)

/-- Extract the packet of a `receive_packet` call, if the event is one. -/
def receivedPacket : Event → Option Packet
  | .receivePacket p => some p
  | _ => none

theorem recvLoop_fst_filterMap (l : List Packet) :
    (recvLoop l).1.filterMap receivedPacket = [] := by
  rw [List.filterMap_eq_nil]
  intro e he
  obtain ⟨r, rfl⟩ := recvLoop_fst_mem l e he
  rfl

/-- C6: the packets available on the replica socket in one loop iteration
are appended to the batch in arrival order and dispatched to
`receive_packet` in that same order — the sequence of `receive_packet`
calls in the iteration's trace is exactly the arrival sequence (and empty
when the socket was not readable). -/
theorem c6_dispatch_in_arrival_order (spt : ℚ) (inp : IterationInput) :
    (recvLoop inp.available).2 = inp.available ∧
    (mainIteration spt inp).filterMap receivedPacket
      = (if inp.socketReady then inp.available else []) := by
  refine ⟨recvLoop_snd inp.available, ?_⟩
  unfold mainIteration
  rw [List.filterMap_cons]
  have htick : (tickEvents spt inp.newPollDelta).filterMap receivedPacket = [] := by
    rw [List.filterMap_eq_nil]
    intro e he
    rcases tickEvents_mem spt inp.newPollDelta e he with rfl | rfl <;> rfl
  cases hs : inp.socketReady with
  | false => simp [recvEvents, htick, receivedPacket]
  | true =>
    have hmap : ∀ l : List Packet,
        (l.map Event.receivePacket).filterMap receivedPacket = l := by
      intro l
      induction l with
      | nil => rfl
      | cons p rest ih => simpa [receivedPacket] using ih
    have hexec : ∀ l : List Packet,
        (if l.length ≠ 0 then [Event.executePending] else []).filterMap
          receivedPacket = [] := by
      intro l
      split <;> rfl
    simp [recvEvents, List.filterMap_append, htick, recvLoop_fst_filterMap,
      hmap, hexec, recvLoop_snd, receivedPacket]

/-! ## Protocol-level error handling in the loop (`impl.py` lines 75-116,
190-211; spec section 7) -/

/-- The protocol-level error conditions of the spec's section-7 table that
handling an inbound message can hit. -/
inductive ProtocolError
  | staleBallot
  | unknownSlot
  | commandDecodeFailure
deriving DecidableEq, Repr

/-- How the handling of one inbound message ends when it does not raise. -/
inductive HandleResult
  | handled
  | nackSent
  | createdThenProceeded
  | droppedAndLogged
deriving DecidableEq, Repr

/-- Modelled from the spec: the dispatch performed by
`channel_receive.receive_packet` and the acceptor/leader handlers it
reaches (`ZMQReplicaReceiveChannel`, `Replica` and the role
implementations are not under src/). Per the spec's section-7 error
table, a stale ballot degrades to a Nack carrying the current ballot, an
unknown slot on a non-Prepare is load-or-create-then-proceed, and a
command decode failure is drop-and-log; none of these raises, so the
`Except` error branch is never taken for a protocol-level condition. -/
def receivePacketDispatch : Option ProtocolError → Except String HandleResult
  | none => .ok .handled
  | some .staleBallot => .ok .nackSent
  | some .unknownSlot => .ok .createdThenProceeded
  | some .commandDecodeFailure => .ok .droppedAndLogged

/-- Dispatching one iteration's packet batch (`impl.py` lines 110-111):
`receive_packet` on each packet in order; the first raise, were there
one, would propagate out of the `for` loop. Each packet is represented by
the protocol-level condition its handling hits (`none` for clean
handling). -/
def dispatchBatch : List (Option ProtocolError) → Except String (List HandleResult)
  | [] => .ok []
  | e :: rest => do
    let r ← receivePacketDispatch e
    let rs ← dispatchBatch rest
    .ok (r :: rs)

/-- The `while True:` loop of `ReplicaServer.main` viewed through its packet
dispatch: one entry of `batches` per iteration. The loop body has no
exception handler (`replica_server`'s `try` is outside `rs.main()`), so a
raise inside a batch ends the loop; otherwise the loop runs on. Returns
the number of iterations completed. -/
def mainLoopDispatch : List (List (Option ProtocolError)) → Except String Nat
  | [] => .ok 0
  | batch :: rest => do
    let _ ← dispatchBatch batch
    let n ← mainLoopDispatch rest
    .ok (n + 1)

theorem dispatchBatch_ok (b : List (Option ProtocolError)) :
    dispatchBatch b = .ok (b.map (fun e =>
      match e with
      | none => HandleResult.handled
      | some .staleBallot => HandleResult.nackSent
      | some .unknownSlot => HandleResult.createdThenProceeded
      | some .commandDecodeFailure => HandleResult.droppedAndLogged)) := by
  induction b with
  | nil => rfl
  | cons e es ih =>
    cases e with
    | none =>
      simp only [dispatchBatch, receivePacketDispatch, ih]
      rfl
    | some pe =>
      cases pe <;>
        (simp only [dispatchBatch, receivePacketDispatch, ih]) <;> rfl

/-- C7: the replica loop never aborts on protocol-level errors — for every
sequence of iterations whose inbound messages hit arbitrary
protocol-level conditions (stale ballot, unknown slot, command decode
failure), every dispatch degrades to a Nack, a load-or-create or a
drop-and-retry without raising, and the loop completes every iteration. -/
theorem c7_loop_never_aborts (batches : List (List (Option ProtocolError))) :
    mainLoopDispatch batches = .ok batches.length := by
  induction batches with
  | nil => rfl
  | cons batch rest ih =>
    simp only [mainLoopDispatch, dispatchBatch_ok, ih, List.length_cons]
    rfl

/-! ## ReplicaClient (`impl.py` lines 131-187) -/

/-- An opaque serialized reply payload as read off the client socket. -/
abbrev Reply := Nat

/-- A socket-level action performed by `ReplicaClient.connect`. -/
inductive SockAction
  | disconnectA (addr : String)
  | connectA (addr : String)
deriving DecidableEq, Repr

/-- The state of a `ReplicaClient` the claims depend on: its peer id, the
`peer_addr` dict (as an association list in insertion order), the
currently connected `replica_id` (`None` initially), and whether a send
channel object is installed (`self.channel`, `None` initially). -/
structure ReplicaClient where
  peer_id : Nat
  peer_addr : List (Nat × String)
  replica_id : Option Nat
  channel : Bool
deriving DecidableEq, Repr

/-- `ReplicaClient.__init__` (`impl.py` lines 132-150): `replica_id` and
`channel` start as `None`. -/
def ReplicaClient.init (peer_id : Nat) (peer_addr : List (Nat × String)) :
    ReplicaClient :=
  { peer_id := peer_id, peer_addr := peer_addr, replica_id := none,
    channel := false }

/-- The address `self.peer_addr[rid].replica_addr`; the dict access assumes
the key present (a missing key would raise `KeyError`, outside the claims
considered here). -/
def lookupAddr (c : ReplicaClient) (rid : Nat) : String :=
  (c.peer_addr.lookup rid).getD ""

/-- Python truthiness of `self.replica_id` (an `int` or `None`): `None` and
`0` are falsy, every other int is truthy. -/
def pyTruthy : Option Nat → Bool
  | none => false
  | some n => n ≠ 0

/-- `ReplicaClient.connect` (`impl.py` lines 152-162). The `random.choice`
over the `peer_addr` keys is modelled by the explicit argument `pick`
(used only when `requested` is `None`). The guard `if self.replica_id:`
is a truthiness test; when it passes, the socket disconnects from the old
replica's address. Then `replica_id` is set, a fresh send channel is
installed, and the socket connects to the new replica's address. -/
def ReplicaClient.connect (c : ReplicaClient) (requested : Option Nat)
    (pick : Nat) : ReplicaClient × List SockAction :=
  let rid := requested.getD pick
  let disc :=
    if pyTruthy c.replica_id
    then [SockAction.disconnectA (lookupAddr c (c.replica_id.getD 0))]
    else []
  ({ c with replica_id := some rid, channel := true },
   disc ++ [SockAction.connectA (lookupAddr c rid)])

/-- C10: after `connect(r1)`, a second `connect(r2)` disconnects the socket
from r1's address (before connecting to r2's) exactly when r1 is nonzero
— the guard tests the truthiness of `replica_id`, so a previous
connection to replica 0 is left in place — and in all cases it sets
`replica_id` to r2 and installs a fresh send channel. -/
theorem c10_connect_truthiness_guard (c : ReplicaClient) (r1 r2 pick1 pick2 : Nat) :
    ((((ReplicaClient.connect c (some r1) pick1).1).connect (some r2) pick2).2 =
      (if r1 = 0 then []
       else [SockAction.disconnectA
         (lookupAddr (ReplicaClient.connect c (some r1) pick1).1 r1)]) ++
        [SockAction.connectA
          (lookupAddr (ReplicaClient.connect c (some r1) pick1).1 r2)]) ∧
    (((ReplicaClient.connect c (some r1) pick1).1.connect (some r2) pick2).1.replica_id
      = some r2) ∧
    (((ReplicaClient.connect c (some r1) pick1).1.connect (some r2) pick2).1.channel
      = true) := by
  refine ⟨?_, rfl, rfl⟩
  by_cases h : r1 = 0
  · simp [ReplicaClient.connect, pyTruthy, h]
  · simp [ReplicaClient.connect, pyTruthy, h]

/-- An observable action of `ReplicaClient.request`: sending the client
request over the channel, or one `poller.poll(TIMEOUT)` window. -/
inductive ClientEvent
  | sendRequest (replica_id : Nat) (command : Nat)
  | pollWindow (timeout_ms : Nat)
deriving DecidableEq, Repr

/-- `TIMEOUT = 1000` (`impl.py` line 167), milliseconds per poll window. -/
def TIMEOUT : Nat := 1000

/-- The `while True:` loop of `ReplicaClient.request` (`impl.py` lines
173-187), run against a finite schedule of poll outcomes: each entry is
the wall-clock time at that point and, when the socket became readable in
that window, the reply payload. On a readable window the payload is
received, deserialized, and returned with the elapsed latency; on an
empty window the identical client request is retransmitted and the loop
continues. An exhausted schedule means the loop is still running. -/
def requestLoop (deser : Reply → Nat) (rid cmd : Nat) (start : ℚ) :
    List (ℚ × Option Reply) → Option (ℚ × Nat) × List ClientEvent
  | [] => (none, [])
  | (t, some payload) :: _ =>
    (some (t - start, deser payload), [ClientEvent.pollWindow TIMEOUT])
  | (_, none) :: rest =>
    let (res, evs) := requestLoop deser rid cmd start rest
    (res, ClientEvent.pollWindow TIMEOUT :: ClientEvent.sendRequest rid cmd :: evs)

/-- `ReplicaClient.request(command)` (`impl.py` lines 164-187): `assert
self.replica_id is not None` raises `AssertionError` when no replica is
connected; otherwise the request is sent once and the poll loop runs. -/
def ReplicaClient.request (c : ReplicaClient) (deser : Reply → Nat) (cmd : Nat)
    (start : ℚ) (polls : List (ℚ × Option Reply)) :
    Except String (Option (ℚ × Nat) × List ClientEvent) :=
  match c.replica_id with
  | none => .error "AssertionError"
  | some rid =>
    let (res, evs) := requestLoop deser rid cmd start polls
    .ok (res, ClientEvent.sendRequest rid cmd :: evs)

/-- Whether a `request` outcome is the assertion failure. -/
def isAssertError : Except String (Option (ℚ × Nat) × List ClientEvent) → Bool
  | .error s => s = "AssertionError"
  | .ok _ => false

/-- C8: `ReplicaClient.request` raises `AssertionError` exactly when it is
called with no replica connected (`replica_id` is `None`, its state when
`connect` has never run), and on any client on which `connect` has run —
with any requested replica or random pick — the assertion never fires. -/
theorem c8_request_assert (c : ReplicaClient) (deser : Reply → Nat) (cmd : Nat)
    (start : ℚ) (polls : List (ℚ × Option Reply)) (requested : Option Nat)
    (pick : Nat) :
    (isAssertError (ReplicaClient.request c deser cmd start polls)
      = c.replica_id.isNone) ∧
    (isAssertError (ReplicaClient.request
        ((ReplicaClient.connect c requested pick).1) deser cmd start polls)
      = false) := by
  constructor
  · cases h : c.replica_id with
    | none => simp [ReplicaClient.request, isAssertError, h]
    | some rid => simp [ReplicaClient.request, isAssertError, h]
  · simp [ReplicaClient.request, ReplicaClient.connect, isAssertError]

theorem requestLoop_all_none_fst (deser : Reply → Nat) (rid cmd : Nat) (start : ℚ)
    (polls : List (ℚ × Option Reply)) (h : ∀ e ∈ polls, e.2 = none) :
    (requestLoop deser rid cmd start polls).1 = none := by
  induction polls with
  | nil => rfl
  | cons e rest ih =>
    obtain ⟨t0, r0⟩ := e
    have h0 : r0 = none := h (t0, r0) (List.mem_cons_self _ _)
    subst h0
    have hrest := ih (fun x hx => h x (List.mem_cons_of_mem _ hx))
    rcases hrl : requestLoop deser rid cmd start rest with ⟨res, evs⟩
    rw [hrl] at hrest
    simp [requestLoop, hrl, hrest]

theorem requestLoop_first_reply (deser : Reply → Nat) (rid cmd : Nat)
    (start t : ℚ) (payload : Reply) (post : List (ℚ × Option Reply)) :
    ∀ pre : List (ℚ × Option Reply), (∀ e ∈ pre, e.2 = none) →
      requestLoop deser rid cmd start (pre ++ (t, some payload) :: post) =
        (some (t - start, deser payload),
         (pre.map fun _ => [ClientEvent.pollWindow TIMEOUT,
            ClientEvent.sendRequest rid cmd]).join
           ++ [ClientEvent.pollWindow TIMEOUT]) := by
  intro pre
  induction pre with
  | nil => intro _; rfl
  | cons e es ih =>
    intro h
    obtain ⟨t0, r0⟩ := e
    have h0 : r0 = none := h (t0, r0) (List.mem_cons_self _ _)
    subst h0
    have hes := ih (fun x hx => h x (List.mem_cons_of_mem _ hx))
    simp [requestLoop, hes]

/-- C9: for every call after `connect`, `request` returns only once a reply
packet has arrived on the socket — with the measured latency and the
deserialized reply — after retransmitting the identical client request
once per 1000 ms poll window that yielded no reply (so the command is
sent 1 + (number of empty windows) times in total); if no window ever
yields a reply the loop never returns, at any finite number of
windows. -/
theorem c9_request_returns_on_reply (c : ReplicaClient) (requested : Option Nat)
    (pick : Nat) (deser : Reply → Nat) (cmd : Nat) (start t : ℚ) (payload : Reply)
    (pre post : List (ℚ × Option Reply)) (hpre : ∀ e ∈ pre, e.2 = none) :
    (ReplicaClient.request ((ReplicaClient.connect c requested pick).1) deser cmd
        start (pre ++ (t, some payload) :: post)
      = .ok (some (t - start, deser payload),
          ClientEvent.sendRequest (requested.getD pick) cmd ::
            ((pre.map fun _ => [ClientEvent.pollWindow TIMEOUT,
                ClientEvent.sendRequest (requested.getD pick) cmd]).join
              ++ [ClientEvent.pollWindow TIMEOUT]))) ∧
    (∀ polls : List (ℚ × Option Reply), (∀ e ∈ polls, e.2 = none) →
      (requestLoop deser (requested.getD pick) cmd start polls).1 = none) := by
  constructor
  · simp [ReplicaClient.request, ReplicaClient.connect,
      requestLoop_first_reply deser (requested.getD pick) cmd start t payload post
        pre hpre]
  · intro polls hnone
    exact requestLoop_all_none_fst deser (requested.getD pick) cmd start polls hnone

/-- C9 witness at a concrete input. -/
theorem c9_request_returns_on_reply_witness :
    ((∀ e ∈ [((1 : ℚ), (none : Option Reply))], e.2 = none) ∧
     (ReplicaClient.request
        ((ReplicaClient.connect (ReplicaClient.init 7 [(1, "a")]) (some 1) 0).1)
        (fun r => r) 42 0 ([((1 : ℚ), (none : Option Reply))] ++ (5, some 99) :: [])
      = .ok (some ((5 : ℚ) - 0, 99),
          ClientEvent.sendRequest ((some 1).getD 0) 42 ::
            (([((1 : ℚ), (none : Option Reply))].map
                fun _ => [ClientEvent.pollWindow TIMEOUT,
                  ClientEvent.sendRequest ((some 1).getD 0) 42]).join
              ++ [ClientEvent.pollWindow TIMEOUT]))) ∧
     (∀ polls : List (ℚ × Option Reply), (∀ e ∈ polls, e.2 = none) →
      (requestLoop (fun r => r) ((some 1).getD 0) 42 0 polls).1 = none)) :=
  ⟨by simp,
   c9_request_returns_on_reply (ReplicaClient.init 7 [(1, "a")]) (some 1) 0
     (fun r => r) 42 0 5 99 [((1 : ℚ), (none : Option Reply))] [] (by simp)⟩
